import Mathlib

/-!
Shallow embedding of the atomic multi-call bundle engine of the
futarchy-arbitrage repository, together with theorems settling the
frozen claims about it.

The embedded code lives in:
  - src/helpers/bundle_helpers.py (call encoders, result decoder,
    liquidation planner, liquidation call builder);
  - src/arbitrage_commands/buy_cond_eip7702.py (bundle builder and the
    three-phase simulation orchestration);
  - scripts/debug_eip7702_transaction.py and scripts/test_eip7702_basic.py
    (EIP-7702 authorization construction).

Modelling conventions:
  - Python integers are modelled as Int (amounts decoded from uint256
    words as Nat); addresses, pool ids and operation names are opaque
    String values, with checksum normalisation modelled as the identity;
  - the binary ABI serialisation of an encoded call (keccak selector plus
    eth-abi argument encoding) is modelled symbolically by the CallData
    inductive, which records the target function and its argument values
    in source order; the raw bytes returned per call are List Nat;
  - the wall-clock reading int(time.time()) taken inside an encoder is
    passed in explicitly as the argument named now;
  - the float expression int(x * 1.1) used for slippage buffers is passed
    in as an explicit function argument named intTimes1_1, so every
    theorem below holds for any rounding the float computation realises;
  - effects (environment variables, the chain client) are passed as
    explicit structures; exceptions raised by eth-abi decoding are
    modelled with Except, and a Python dict of parsed results is an
    association list with insert-or-replace update.
-/

namespace FutarchyArb

/-- Raw bytes returned for one call of the bundle, one Nat per byte. -/
abbrev Bytes := List Nat

/-- Big-endian interpretation of a byte list as a natural number. -/
def beNat (bs : List Nat) : Nat := bs.foldl (fun acc b => acc * 256 + b) 0

/-- Model of eth-abi decode of a single uint256: needs at least one
32-byte word, whose big-endian value is returned; otherwise the Python
decoder raises, modelled as none. -/
def decodeUint256 (b : Bytes) : Option Nat :=
  if b.length < 32 then none else some (beNat (b.take 32))

/-- Model of eth-abi decode of a single bool: one 32-byte word whose
first 31 bytes are zero padding and whose last byte is 0 or 1; anything
else raises in Python, modelled as none. -/
def decodeBool (b : Bytes) : Option Bool :=
  if b.length < 32 then none
  else if (b.take 31).all (fun x => x == 0) then
    match b[31]? with
    | some 0 => some false
    | some 1 => some true
    | _ => none
  else none

/-- Boolean test that the first list occurs contiguously inside the
second, helper for pyContains. -/
def strContainsAux (needle : List Char) : List Char → Bool
  | [] => needle.isPrefixOf []
  | c :: rest => needle.isPrefixOf (c :: rest) || strContainsAux needle rest

/-- Model of the Python membership test needle in haystack on strings. -/
def pyContains (needle haystack : String) : Bool :=
  strContainsAux needle.toList haystack.toList

/-- Typed outcome of decoding one per-call result, mirroring the small
Python dicts built by parse_bundle_results and parse_swap_result: which
constructor applies records exactly which keys the dict carries. -/
inductive Outcome where
  /-- Dict of shape success: b, from the approval branch. -/
  | success (b : Bool)
  /-- Dict of shape executed: True, from the split and merge branches. -/
  | executed
  /-- Dict of shape amount_out: n, from the balancer_swap branch. -/
  | amountOut (n : Nat)
  /-- Dict of shape amount_out: n, type: exactIn, from parse_swap_result. -/
  | swapOut (n : Nat)
  /-- Dict of shape amount_in: n, type: exactOut, from parse_swap_result. -/
  | swapIn (n : Nat)
  /-- Dict of shape error: s. -/
  | errorMsg (s : String)
  /-- Dict of shape raw: hex bytes, from the fallback branch. -/
  | raw (b : Bytes)
deriving DecidableEq

/-- Value of the amount_in key of an outcome dict, when present. -/
def outcomeAmountIn : Outcome → Option Nat
  | .swapIn n => some n
  | _ => none

/-- Value of the amount_out key of an outcome dict, when present. -/
def outcomeAmountOut : Outcome → Option Nat
  | .swapOut n => some n
  | .amountOut n => some n
  | _ => none

/-- A Python dict from operation name to outcome, as an association list
in insertion order. -/
abbrev PyDict := List (String × Outcome)

/-- Dict update parsed[k] = v: replaces the binding of k if present,
appends it otherwise. -/
def dictInsert : PyDict → String → Outcome → PyDict
  | [], k, v => [(k, v)]
  | (k', v') :: rest, k, v =>
    if k' = k then (k, v) :: rest else (k', v') :: dictInsert rest k v

/-- Dict lookup: the binding of k, if any (keys are unique under
dictInsert, so first match equals Python lookup). -/
def dictGet : PyDict → String → Option Outcome
  | [], _ => none
  | (k', v) :: rest, k => if k' = k then some v else dictGet rest k

/-! ### Call encoders (src/helpers/bundle_helpers.py) -/

/-- Arguments of the Swapr ExactInputSingleParams and
ExactOutputSingleParams structs, in the order they are ABI-encoded by
encode_swapr_exact_in_params and encode_swapr_exact_out_params: for
exact-in, amountMain is amount_in and amountBound is amount_out_min; for
exact-out, amountMain is amount_out and amountBound is amount_in_max. -/
structure ExactSingleParams where
  tokenIn : String
  tokenOut : String
  recipient : String
  deadline : Int
  amountMain : Int
  amountBound : Int
  sqrtPriceLimitX96 : Int
deriving DecidableEq

/-- Balancer SingleSwap struct, in the source encoding order. -/
structure SingleSwap where
  poolId : String
  kind : Int
  assetIn : String
  assetOut : String
  amount : Int
  userData : Bytes
deriving DecidableEq

/-- Balancer FundManagement struct. -/
structure FundManagement where
  sender : String
  fromInternalBalance : Bool
  recipient : String
  toInternalBalance : Bool
deriving DecidableEq

/-- Symbolic model of the data field of an encoded call: the selected
function and its argument values, in source order. -/
inductive CallData where
  | approve (spender : String) (amount : Int)
  | splitPosition (proposal collateral : String) (amount : Int)
  | mergePositions (proposal collateral : String) (amount : Int)
  | exactInputSingle (params : ExactSingleParams)
  | exactOutputSingle (params : ExactSingleParams)
  | balancerSwap (single : SingleSwap) (funds : FundManagement)
      (limit deadline : Int)
deriving DecidableEq

/-- One externally-directed instruction of a bundle. -/
structure Call where
  target : String
  value : Int
  data : CallData
deriving DecidableEq

/-- Semantic kind of an encoded call, read off its symbolic data. -/
def callKind (c : Call) : String :=
  match c.data with
  | .approve _ _ => "approval"
  | .splitPosition _ _ _ => "split"
  | .mergePositions _ _ _ => "merge"
  | .exactInputSingle _ => "swapr_exact_in"
  | .exactOutputSingle _ => "swapr_exact_out"
  | .balancerSwap _ _ _ _ => "balancer_swap"

/-- Deadline argument embedded in an encoded call, when it has one. -/
def callDeadline (c : Call) : Option Int :=
  match c.data with
  | .exactInputSingle p => some p.deadline
  | .exactOutputSingle p => some p.deadline
  | .balancerSwap _ _ _ deadline => some deadline
  | _ => none

/-- Embedding of encode_approval_call. -/
def encode_approval_call (token spender : String) (amount : Int) : Call :=
  { target := token, value := 0, data := .approve spender amount }

/-- Embedding of encode_split_position_call. -/
def encode_split_position_call (router proposal collateral : String)
    (amount : Int) : Call :=
  { target := router, value := 0,
    data := .splitPosition proposal collateral amount }

/-- Embedding of encode_merge_positions_call. -/
def encode_merge_positions_call (router proposal collateral : String)
    (amount : Int) : Call :=
  { target := router, value := 0,
    data := .mergePositions proposal collateral amount }

/-- Embedding of encode_swapr_exact_in_params; now is the wall-clock
reading int(time.time()) at the moment of encoding, used when the caller
passes no deadline. -/
def encode_swapr_exact_in_params (token_in token_out : String)
    (amount_in amount_out_min : Int) (recipient : String)
    (deadline : Option Int) (now : Int) : ExactSingleParams :=
  { tokenIn := token_in, tokenOut := token_out, recipient := recipient,
    deadline := deadline.getD (now + 600),
    amountMain := amount_in, amountBound := amount_out_min,
    sqrtPriceLimitX96 := 0 }

/-- Embedding of encode_swapr_exact_in_call. -/
def encode_swapr_exact_in_call (router token_in token_out : String)
    (amount_in amount_out_min : Int) (recipient : String)
    (deadline : Option Int) (now : Int) : Call :=
  { target := router, value := 0,
    data := .exactInputSingle (encode_swapr_exact_in_params token_in
      token_out amount_in amount_out_min recipient deadline now) }

/-- Embedding of encode_swapr_exact_out_params. -/
def encode_swapr_exact_out_params (token_in token_out : String)
    (amount_out amount_in_max : Int) (recipient : String)
    (deadline : Option Int) (now : Int) : ExactSingleParams :=
  { tokenIn := token_in, tokenOut := token_out, recipient := recipient,
    deadline := deadline.getD (now + 600),
    amountMain := amount_out, amountBound := amount_in_max,
    sqrtPriceLimitX96 := 0 }

/-- Embedding of encode_swapr_exact_out_call. -/
def encode_swapr_exact_out_call (router token_in token_out : String)
    (amount_out amount_in_max : Int) (recipient : String)
    (deadline : Option Int) (now : Int) : Call :=
  { target := router, value := 0,
    data := .exactOutputSingle (encode_swapr_exact_out_params token_in
      token_out amount_out amount_in_max recipient deadline now) }

/-- Embedding of encode_balancer_swap_call: kind 0 is GIVEN_IN, the
limit argument is encoded as 0 and the deadline defaults to the
wall-clock reading plus 600 seconds. -/
def encode_balancer_swap_call (vault pool_id asset_in asset_out : String)
    (amount : Int) (sender recipient : String)
    (deadline : Option Int) (now : Int) : Call :=
  { target := vault, value := 0,
    data := .balancerSwap
      { poolId := pool_id, kind := 0, assetIn := asset_in,
        assetOut := asset_out, amount := amount, userData := [] }
      { sender := sender, fromInternalBalance := false,
        recipient := recipient, toInternalBalance := false }
      0 (deadline.getD (now + 600)) }

/-! ### Result decoder (src/helpers/bundle_helpers.py) -/

/-- Embedding of parse_swap_result: decode failures are caught inside
the function and surface as an error outcome, never as an exception. -/
def parse_swap_result (result_bytes : Bytes) (swap_type : String) : Outcome :=
  if result_bytes.length = 0 then .errorMsg "Empty result"
  else if swap_type = "exactIn" then
    match decodeUint256 result_bytes with
    | some amount_out => .swapOut amount_out
    | none => .errorMsg "Failed to decode"
  else
    match decodeUint256 result_bytes with
    | some amount_in => .swapIn amount_in
    | none => .errorMsg "Failed to decode"

/-- One iteration of the parse_bundle_results loop body: the outcome
stored for an operation of the given type and name, or a thrown
exception (Except.error) when an approval or balancer_swap result with
nonempty undecodable bytes makes the uncaught eth-abi decode raise. -/
def parseOp (op_type op_name : String) (result : Bytes) :
    Except String Outcome :=
  if op_type = "approval" then
    if result.length > 0 then
      match decodeBool result with
      | some success => .ok (.success success)
      | none => .error "could not decode approval bool"
    else .ok (.success true)
  else if op_type = "split" then .ok .executed
  else if op_type = "swap" then
    .ok (if pyContains "exact_in" op_name then
        parse_swap_result result "exactIn"
      else
        parse_swap_result result "exactOut")
  else if op_type = "merge" then .ok .executed
  else if op_type = "balancer_swap" then
    if result.length > 0 then
      match decodeUint256 result with
      | some amount_out => .ok (.amountOut amount_out)
      | none => .error "could not decode balancer uint256"
    else .ok (.errorMsg "No result from Balancer")
  else .ok (.raw result)

/-- Loop of parse_bundle_results over the operation map in insertion
order: entries whose index is out of range of the decoded results are
skipped, and any exception aborts the whole loop. -/
def parseBundleResultsAux (results : List Bytes) :
    List (Nat × String × String) → PyDict → Except String PyDict
  | [], acc => .ok acc
  | (idx, op_type, op_name) :: rest, acc =>
    if h : idx < results.length then
      match parseOp op_type op_name (results.get ⟨idx, h⟩) with
      | .error e => .error e
      | .ok o => parseBundleResultsAux results rest (dictInsert acc op_name o)
    else
      parseBundleResultsAux results rest acc

/-- Embedding of parse_bundle_results, taking the per-call byte strings
already extracted from the outer bytes-array ABI decoding: on any
exception inside the loop the whole parse returns the single-entry
error dict built by the except branch of the source. -/
def parse_bundle_results (results : List Bytes)
    (operation_map : List (Nat × String × String)) : PyDict :=
  match parseBundleResultsAux results operation_map [] with
  | .ok parsed => parsed
  | .error e =>
    [("error", .errorMsg ("Failed to parse bundle results: " ++ e))]

/-! ### Liquidation planner (src/helpers/bundle_helpers.py) -/

/-- Embedding of calculate_liquidation_amount. -/
def calculate_liquidation_amount (yes_amount no_amount yes_used no_used : Int) :
    Int × String :=
  let yes_remaining := if yes_amount < no_amount then yes_used - yes_amount else 0
  let no_remaining := if no_amount < yes_amount then no_used - no_amount else 0
  if yes_remaining > no_remaining then (yes_remaining, "YES")
  else if no_remaining > yes_remaining then (no_remaining, "NO")
  else (0, "NONE")

/-- Addresses read from the environment by the bundle modules. -/
structure Env where
  futarchy_router : String
  swapr_router : String
  balancer_vault : String
  sdai : String
  company : String
  sdai_yes : String
  sdai_no : String
  company_yes : String
  company_no : String
  proposal : String
  pool_id : String
  account : String
  batch_executor : String

/-- Embedding of build_liquidation_calls; intTimes1_1 models the float
expression int(liquidation_amount * 1.1) and now the wall-clock reading
used for the default swap deadline. -/
def build_liquidation_calls (intTimes1_1 : Int → Int) (env : Env) (now : Int)
    (liquidation_amount : Int) (token_type : String)
    (swapr_router futarchy_router : String) : List Call :=
  if token_type = "YES" then
    [encode_approval_call env.sdai_yes swapr_router liquidation_amount,
     encode_swapr_exact_in_call swapr_router env.sdai_yes env.sdai
       liquidation_amount 0 env.batch_executor none now]
  else if token_type = "NO" then
    let estimated_sdai := intTimes1_1 liquidation_amount
    [encode_approval_call env.sdai swapr_router estimated_sdai,
     encode_swapr_exact_out_call swapr_router env.sdai env.sdai_yes
       liquidation_amount estimated_sdai env.batch_executor none now,
     encode_approval_call env.sdai_yes futarchy_router liquidation_amount,
     encode_approval_call env.sdai_no futarchy_router liquidation_amount,
     encode_merge_positions_call futarchy_router env.proposal env.sdai
       liquidation_amount]
  else []

/-! ### Bundle builder and three-phase orchestration
(src/arbitrage_commands/buy_cond_eip7702.py) -/

/-- Liquidation sub-dict of the simulation-results dict. -/
structure LiqPlan where
  amount : Int
  token_type : String
deriving DecidableEq

/-- Simulation-results dict handed to build_buy_conditional_bundle; an
Option field models presence of the corresponding key. -/
structure SimResults where
  target_amount : Option Int
  merge_amount : Option Int
  liquidation : Option LiqPlan

/-- Embedding of build_buy_conditional_bundle; amount_wei is the wei
value of the sDAI amount, intTimes1_1 models int(amount_wei * 1.1) and
now the wall-clock reading for default deadlines. -/
def build_buy_conditional_bundle (intTimes1_1 : Int → Int) (env : Env)
    (now : Int) (amount_wei : Int)
    (simulation_results : Option SimResults) : List Call :=
  let head :=
    [encode_approval_call env.sdai env.futarchy_router amount_wei,
     encode_split_position_call env.futarchy_router env.proposal env.sdai
       amount_wei]
  let swaps :=
    match simulation_results with
    | some sim =>
      match sim.target_amount with
      | some target_amount =>
        let max_input := intTimes1_1 amount_wei
        [encode_approval_call env.sdai_yes env.swapr_router max_input,
         encode_swapr_exact_out_call env.swapr_router env.sdai_yes
           env.company_yes target_amount max_input env.account none now,
         encode_approval_call env.sdai_no env.swapr_router max_input,
         encode_swapr_exact_out_call env.swapr_router env.sdai_no
           env.company_no target_amount max_input env.account none now]
      | none =>
        [encode_approval_call env.sdai_yes env.swapr_router amount_wei,
         encode_swapr_exact_in_call env.swapr_router env.sdai_yes
           env.company_yes amount_wei 0 env.account none now,
         encode_approval_call env.sdai_no env.swapr_router amount_wei,
         encode_swapr_exact_in_call env.swapr_router env.sdai_no
           env.company_no amount_wei 0 env.account none now]
    | none =>
      [encode_approval_call env.sdai_yes env.swapr_router amount_wei,
       encode_swapr_exact_in_call env.swapr_router env.sdai_yes
         env.company_yes amount_wei 0 env.account none now,
       encode_approval_call env.sdai_no env.swapr_router amount_wei,
       encode_swapr_exact_in_call env.swapr_router env.sdai_no
         env.company_no amount_wei 0 env.account none now]
  let merge_amount :=
    match simulation_results with
    | some sim => sim.merge_amount.getD 0
    | none => 0
  let tail :=
    [encode_approval_call env.company_yes env.futarchy_router (2 ^ 256 - 1),
     encode_approval_call env.company_no env.futarchy_router (2 ^ 256 - 1),
     encode_merge_positions_call env.futarchy_router env.proposal env.company
       merge_amount,
     encode_approval_call env.company env.balancer_vault (2 ^ 256 - 1),
     encode_balancer_swap_call env.balancer_vault env.pool_id env.company
       env.sdai merge_amount env.account env.account none now]
  let liquidation_calls :=
    match simulation_results with
    | some sim =>
      match sim.liquidation with
      | some liq =>
        if liq.amount > 0 then
          build_liquidation_calls intTimes1_1 env now liq.amount
            liq.token_type env.swapr_router env.futarchy_router
        else []
      | none => []
    | none => []
  head ++ swaps ++ tail ++ liquidation_calls

/-- Modelled from the spec: the bundle size ceiling MAX_CALLS of the
batch-executor format (the spec gives 10 as the fixed constant; the
Python sources under src/ contain no such constant and no
BundleSizeExceeded error, and the FutarchyBatchExecutor contract itself
is not part of the sources). -/
def MAX_CALLS : Nat := 10

/-- The discovery operation map of simulate_buy_conditional_bundle,
reused verbatim for the Balance-phase parse. -/
def discovery_map : List (Nat × String × String) :=
  [(0, "approval", "sdai_to_router"),
   (1, "split", "split_sdai"),
   (2, "approval", "yes_to_swapr"),
   (3, "swap", "yes_swap_exact_in"),
   (4, "approval", "no_to_swapr"),
   (5, "swap", "no_swap_exact_in"),
   (6, "approval", "yes_company_to_router"),
   (7, "approval", "no_company_to_router"),
   (8, "merge", "merge_company"),
   (9, "approval", "company_to_balancer"),
   (10, "balancer_swap", "final_swap")]

/-- Lookup of the amount_in key of the named entry of a parsed dict,
falling back to the given default exactly as the Balance-phase extraction
does for yes_used and no_used. -/
def dictAmountInOr (parsed : PyDict) (key : String) (default : Int) : Int :=
  match dictGet parsed key with
  | some o =>
    match outcomeAmountIn o with
    | some n => (n : Int)
    | none => default
  | none => default

/-- Embedding of the Balance-phase extraction of used amounts: yes_used
and no_used start at the full input amount and are replaced only when
the parsed entry carries an amount_in key. -/
def extract_used_amounts (parsed_balanced : PyDict) (amount_wei : Int) :
    Int × Int :=
  (dictAmountInOr parsed_balanced "yes_swap_exact_in" amount_wei,
   dictAmountInOr parsed_balanced "no_swap_exact_in" amount_wei)

/-- Embedding of the Finalize-phase accounting of
simulate_buy_conditional_bundle: the pair (sdai_out, sdai_net) computed
from the parsed final results, the liquidation direction and amount, and
the initial input amount in wei. -/
def compute_final_sdai (parsed_final : PyDict) (liquidation_type : String)
    (liquidation_amount amount_wei : Int) : Int × Int :=
  let base : Int :=
    match dictGet parsed_final "final_swap" with
    | some o =>
      match outcomeAmountOut o with
      | some n => (n : Int)
      | none => 0
    | none => 0
  let sdai_out : Int :=
    if liquidation_type = "YES" then
      match dictGet parsed_final "liquidate_yes_swap" with
      | some o =>
        match outcomeAmountOut o with
        | some n => base + (n : Int)
        | none => base
      | none => base
    else if liquidation_type = "NO" then
      match dictGet parsed_final "liquidate_merge" with
      | some _ => base + liquidation_amount
      | none => base
    else base
  (sdai_out, sdai_out - amount_wei)

/-! ### EIP-7702 authorization construction
(scripts/debug_eip7702_transaction.py, scripts/test_eip7702_basic.py) -/

/-- The authorization dict handed to sign_authorization. -/
structure AuthRequest where
  chainId : Int
  address : String
  nonce : Int
deriving DecidableEq

/-- The type-4 transaction dict built around the authorization. -/
structure Tx7702 where
  txType : Int
  chainId : Int
  nonce : Int
  toAddr : String
  value : Int
  authorizationList : List AuthRequest
  gas : Int
  maxFeePerGas : Int
  maxPriorityFeePerGas : Int
deriving DecidableEq

/-- Embedding of the authorization and transaction construction of
debug_eip7702_transaction: nonce is the current transaction count of the
account and gasPrice the current gas price. -/
def debug_eip7702_transaction (chainId : Int) (accountAddr implementation : String)
    (nonce gasPrice : Int) : AuthRequest × Tx7702 :=
  let auth : AuthRequest :=
    { chainId := chainId, address := implementation, nonce := nonce + 1 }
  (auth,
   { txType := 4, chainId := chainId, nonce := nonce, toAddr := accountAddr,
     value := 0, authorizationList := [auth], gas := 500000,
     maxFeePerGas := gasPrice * 2, maxPriorityFeePerGas := 2000000000 })

/-- Embedding of the authorization and transaction construction of
test_basic_eip7702. -/
def test_basic_eip7702 (chainId : Int) (accountAddr wrapper : String)
    (nonce gasPrice : Int) : AuthRequest × Tx7702 :=
  let auth : AuthRequest :=
    { chainId := chainId, address := wrapper, nonce := nonce + 1 }
  (auth,
   { txType := 4, chainId := chainId, nonce := nonce, toAddr := accountAddr,
     value := 0, authorizationList := [auth], gas := 200000,
     maxFeePerGas := gasPrice * 2, maxPriorityFeePerGas := 2000000000 })

/-! ### Concrete instances used by witnesses and counterexamples -/

/-- Concrete environment with distinct opaque addresses. -/
def envEx : Env :=
  { futarchy_router := "FR", swapr_router := "SR", balancer_vault := "BV",
    sdai := "SDAI", company := "COMP", sdai_yes := "SDAI_Y",
    sdai_no := "SDAI_N", company_yes := "COMP_Y", company_no := "COMP_N",
    proposal := "PROP", pool_id := "POOL", account := "ACCT",
    batch_executor := "EXEC" }

/-- Concrete realisation of the float computation int(x * 1.1), used
only to instantiate theorems that hold for any such function. -/
def mul11Ex : Int → Int := fun n => n * 11 / 10

/-! ### Dictionary and parse-loop lemmas -/

/-- Lookup after insert-or-replace behaves like a pointwise update. -/
theorem dictGet_insert (d : PyDict) (k : String) (v : Outcome) (k2 : String) :
    dictGet (dictInsert d k v) k2 = if k = k2 then some v else dictGet d k2 := by
  induction d with
  | nil => simp [dictInsert, dictGet]
  | cons hd tl ih =>
    obtain ⟨k', v'⟩ := hd
    by_cases h : k' = k
    · subst h
      by_cases h2 : k' = k2 <;> simp [dictInsert, dictGet, h2]
    · by_cases h2 : k' = k2
      · subst h2
        have hk : ¬ k = k' := fun hh => h hh.symm
        simp [dictInsert, dictGet, h, hk]
      · simp [dictInsert, dictGet, h, h2, ih]

/-- Every binding of a successfully parsed dict either was already in the
accumulator or is the decoded outcome of an in-range entry of the
operation map with that name. -/
theorem parseAux_get_mem (results : List Bytes) :
    ∀ (opMap : List (Nat × String × String)) (acc d : PyDict),
      parseBundleResultsAux results opMap acc = .ok d →
      ∀ nm o, dictGet d nm = some o →
        dictGet acc nm = some o ∨
        ∃ idx ty, (idx, ty, nm) ∈ opMap ∧
          ∃ h : idx < results.length,
            parseOp ty nm (results.get ⟨idx, h⟩) = .ok o := by
  intro opMap
  induction opMap with
  | nil =>
    intro acc d hok nm o hget
    simp only [parseBundleResultsAux, Except.ok.injEq] at hok
    subst hok
    exact Or.inl hget
  | cons e rest ih =>
    obtain ⟨idx, ty, nm'⟩ := e
    intro acc d hok nm o hget
    by_cases h : idx < results.length
    · simp only [parseBundleResultsAux] at hok
      rw [dif_pos h] at hok
      cases hop : parseOp ty nm' (results.get ⟨idx, h⟩) with
      | error e' =>
        rw [hop] at hok
        exact Except.noConfusion hok
      | ok o' =>
        rw [hop] at hok
        rcases ih (dictInsert acc nm' o') d hok nm o hget with hacc | ⟨i, t, hm, hl, hpo⟩
        · rw [dictGet_insert] at hacc
          by_cases h2 : nm' = nm
          · subst h2
            rw [if_pos rfl] at hacc
            right
            refine ⟨idx, ty, List.mem_cons_self _ _, h, ?_⟩
            rw [hop]
            injection hacc with h3
            rw [h3]
          · rw [if_neg h2] at hacc
            exact Or.inl hacc
        · exact Or.inr ⟨i, t, List.mem_cons_of_mem _ hm, hl, hpo⟩
    · simp only [parseBundleResultsAux] at hok
      rw [dif_neg h] at hok
      rcases ih acc d hok nm o hget with hacc | ⟨i, t, hm, hl, hpo⟩
      · exact Or.inl hacc
      · exact Or.inr ⟨i, t, List.mem_cons_of_mem _ hm, hl, hpo⟩

/-- On operation maps containing only swap, split and merge entries the
parse loop never throws, accumulated bindings survive, and every
in-range entry ends up with a binding under its name. -/
theorem parseAux_total_inrange (results : List Bytes) :
    ∀ (opMap : List (Nat × String × String)),
      (∀ e ∈ opMap, e.2.1 = "swap" ∨ e.2.1 = "split" ∨ e.2.1 = "merge") →
      ∀ acc, ∃ d, parseBundleResultsAux results opMap acc = .ok d ∧
        (∀ nm, (dictGet acc nm).isSome → (dictGet d nm).isSome) ∧
        (∀ e ∈ opMap, e.1 < results.length → (dictGet d e.2.2).isSome) := by
  intro opMap
  induction opMap with
  | nil =>
    intro _ acc
    exact ⟨acc, rfl, fun _ hh => hh, fun e he => absurd he (List.not_mem_nil e)⟩
  | cons e rest ih =>
    obtain ⟨idx, ty, nm'⟩ := e
    intro htypes acc
    have hty : ty = "swap" ∨ ty = "split" ∨ ty = "merge" :=
      htypes (idx, ty, nm') (List.mem_cons_self _ _)
    have hrest : ∀ e ∈ rest, e.2.1 = "swap" ∨ e.2.1 = "split" ∨ e.2.1 = "merge" :=
      fun e he => htypes e (List.mem_cons_of_mem _ he)
    by_cases h : idx < results.length
    · have hok : ∃ o, parseOp ty nm' (results.get ⟨idx, h⟩) = .ok o := by
        rcases hty with h1 | h1 | h1 <;> subst h1 <;> simp [parseOp]
      obtain ⟨o, hop⟩ := hok
      obtain ⟨d, hd, hpres, hinr⟩ := ih hrest (dictInsert acc nm' o)
      refine ⟨d, ?_, ?_, ?_⟩
      · simp only [parseBundleResultsAux]
        rw [dif_pos h, hop]
        exact hd
      · intro nm hs
        apply hpres
        rw [dictGet_insert]
        by_cases h2 : nm' = nm
        · simp [h2]
        · rw [if_neg h2]
          exact hs
      · intro e' he' hlt
        rcases List.mem_cons.mp he' with rfl | hmem
        · apply hpres
          rw [dictGet_insert, if_pos rfl]
          rfl
        · exact hinr e' hmem hlt
    · obtain ⟨d, hd, hpres, hinr⟩ := ih hrest acc
      refine ⟨d, ?_, hpres, ?_⟩
      · simp only [parseBundleResultsAux]
        rw [dif_neg h]
        exact hd
      · intro e' he' hlt
        rcases List.mem_cons.mp he' with rfl | hmem
        · exact absurd hlt h
        · exact hinr e' hmem hlt

/-- The entries of the discovery map named after the two leg swaps carry
operation type swap and a name containing the substring exact_in. -/
theorem discovery_map_swap_names :
    ∀ e ∈ discovery_map,
      (e.2.2 = "yes_swap_exact_in" ∨ e.2.2 = "no_swap_exact_in") →
      e.2.1 = "swap" ∧ pyContains "exact_in" e.2.2 = true := by
  intro e he
  simp only [discovery_map] at he
  fin_cases he <;> decide

/-- Parsing through the exact-in branch never yields an amount_in key. -/
theorem amountIn_parse_exactIn (b : Bytes) :
    outcomeAmountIn (parse_swap_result b "exactIn") = none := by
  by_cases h : b.length = 0
  · simp [parse_swap_result, h, outcomeAmountIn]
  · simp only [parse_swap_result, if_neg h, if_pos rfl]
    cases decodeUint256 b <;> simp [outcomeAmountIn]

/-! ### Claim theorems -/

/-- C1 (counterexample): at the quadruple (yes_amount, no_amount,
yes_used, no_used) = (5, 5, 10, 3) — realized outputs equal, as the
Optimizer always passes after the Balance phase, with yes_used greater
than no_used — the planner returns (0, NONE), not direction YES with
residual 10 - 3 as the claim requires. -/
theorem C1_direction_counterexample :
    calculate_liquidation_amount 5 5 10 3 = (0, "NONE") ∧
    calculate_liquidation_amount 5 5 10 3 ≠ (10 - 3, "YES") := by decide

/-- C1 (amended): the planner derives its remainders from the realized
outputs, not from the difference of used amounts; whenever the two
realized outputs are equal — in particular for the arguments the
Optimizer passes after the Balance phase — it returns amount 0 and
direction NONE regardless of the used amounts. -/
theorem C1_amended_equal_outputs_none :
    ∀ (amount yes_used no_used : Int),
      calculate_liquidation_amount amount amount yes_used no_used = (0, "NONE") := by
  intro a u v
  simp [calculate_liquidation_amount]

/-- C2 (counterexample): the Discovery-phase bundle already has 11 calls
and the Finalize-phase bundle with a NO-direction liquidation has 16,
both exceeding the claimed ceiling of 10, and both are produced by plain
list construction — the sources define no BundleSizeExceeded error and
perform no size check before handing bundles to the simulator. -/
theorem C2_size_counterexample :
    (build_buy_conditional_bundle mul11Ex envEx 0 10000000000000000 none).length = 11 ∧
    MAX_CALLS < (build_buy_conditional_bundle mul11Ex envEx 0 10000000000000000 none).length ∧
    (build_buy_conditional_bundle mul11Ex envEx 0 10000000000000000
        (some ⟨some 9700000000000000, some 9700000000000000,
               some ⟨153000000000000, "NO"⟩⟩)).length = 16 := by decide

/-- C2 (amended): bundle construction performs no size check and raises
nothing: the bundle has exactly 11 calls in the Discovery and Balance
phases and 13 or 16 calls in the Finalize phase with a YES or NO
liquidation, for every input. -/
theorem C2_amended_no_size_check :
    ∀ (intTimes1_1 : Int → Int) (env : Env) (now amount_wei target liq_amount : Int),
      liq_amount > 0 →
      (build_buy_conditional_bundle intTimes1_1 env now amount_wei none).length = 11 ∧
      (build_buy_conditional_bundle intTimes1_1 env now amount_wei
          (some ⟨some target, some target, none⟩)).length = 11 ∧
      (build_buy_conditional_bundle intTimes1_1 env now amount_wei
          (some ⟨some target, some target, some ⟨liq_amount, "YES"⟩⟩)).length = 13 ∧
      (build_buy_conditional_bundle intTimes1_1 env now amount_wei
          (some ⟨some target, some target, some ⟨liq_amount, "NO"⟩⟩)).length = 16 := by
  intro f env now aw tgt la hla
  refine ⟨rfl, rfl, ?_, ?_⟩
  · simp [build_buy_conditional_bundle, build_liquidation_calls, hla]
  · simp [build_buy_conditional_bundle, build_liquidation_calls, hla]

/-- C2 (witness for the amended claim), at concrete inputs. -/
theorem C2_amended_witness :
    (build_buy_conditional_bundle mul11Ex envEx 0 7 none).length = 11 ∧
    (build_buy_conditional_bundle mul11Ex envEx 0 7
        (some ⟨some 9, some 9, none⟩)).length = 11 ∧
    (build_buy_conditional_bundle mul11Ex envEx 0 7
        (some ⟨some 9, some 9, some ⟨5, "YES"⟩⟩)).length = 13 ∧
    (build_buy_conditional_bundle mul11Ex envEx 0 7
        (some ⟨some 9, some 9, some ⟨5, "NO"⟩⟩)).length = 16 :=
  C2_amended_no_size_check mul11Ex envEx 0 7 9 5 (by decide)

/-- C3 (counterexample): with the wall clock at 2000 and the latest
observed block timestamp at 1000, the default deadline embedded by the
Swapr exact-in encoder is 2600 = wall clock + 600, not block timestamp
plus 600 = 1600. -/
theorem C3_wall_clock_counterexample :
    (encode_swapr_exact_in_params "TIN" "TOUT" 1 0 "RCP" none 2000).deadline = 2600 ∧
    (encode_swapr_exact_in_params "TIN" "TOUT" 1 0 "RCP" none 2000).deadline ≠ 1000 + 600 := by
  decide

/-- C3 (amended): when the caller supplies no deadline, all three swap
encoders embed the wall-clock reading int(time.time()) plus 600 seconds,
and a caller-supplied deadline is embedded unchanged. -/
theorem C3_amended_wall_clock_deadline :
    ∀ (tin tout rcp vault pool_id ain aout sndr : String) (a b amt d now : Int),
      (encode_swapr_exact_in_params tin tout a b rcp none now).deadline = now + 600 ∧
      (encode_swapr_exact_out_params tin tout a b rcp none now).deadline = now + 600 ∧
      callDeadline (encode_balancer_swap_call vault pool_id ain aout amt sndr rcp none now)
        = some (now + 600) ∧
      (encode_swapr_exact_in_params tin tout a b rcp (some d) now).deadline = d ∧
      (encode_swapr_exact_out_params tin tout a b rcp (some d) now).deadline = d ∧
      callDeadline (encode_balancer_swap_call vault pool_id ain aout amt sndr rcp (some d) now)
        = some d := by
  intros
  exact ⟨rfl, rfl, rfl, rfl, rfl, rfl⟩

/-- Concrete result bytes making the approval branch of the result
decoder raise: five garbage bytes for the approval at index 0, followed
by a well-formed 32-byte word for the swap at index 1. -/
def c4Results : List Bytes := [[1, 2, 3, 4, 5], List.replicate 31 0 ++ [7]]

/-- Operation map pairing the undecodable approval with a decodable
exact-in swap. -/
def c4Map : List (Nat × String × String) :=
  [(0, "approval", "bad_approval"), (1, "swap", "good_swap_exact_in")]

/-- C4 (counterexample): when the approval result at index 0 cannot be
decoded, the whole parse returns the single top-level error dict: the
undecodable operation gets no per-operation error entry and the
perfectly decodable swap result at index 1 is discarded too. -/
theorem C4_abort_counterexample :
    (parse_bundle_results c4Results c4Map).length = 1 ∧
    dictGet (parse_bundle_results c4Results c4Map) "bad_approval" = none ∧
    dictGet (parse_bundle_results c4Results c4Map) "good_swap_exact_in" = none := by decide

/-- C4 (amended): error containment holds only for the swap, split and
merge branches — on operation maps made of those kinds the parse loop
never throws, the whole-bundle error path is not taken, and every
in-range operation receives an entry (a decoded value or a per-operation
error dict); an undecodable approval or balancer_swap result instead
aborts the whole parse. -/
theorem C4_amended_swap_errors_contained :
    ∀ (results : List Bytes) (opMap : List (Nat × String × String)),
      (∀ e ∈ opMap, e.2.1 = "swap" ∨ e.2.1 = "split" ∨ e.2.1 = "merge") →
      ∃ parsed, parseBundleResultsAux results opMap [] = .ok parsed ∧
        parse_bundle_results results opMap = parsed ∧
        ∀ e ∈ opMap, e.1 < results.length → (dictGet parsed e.2.2).isSome := by
  intro results opMap h
  obtain ⟨d, hd, _, hinr⟩ := parseAux_total_inrange results opMap h []
  refine ⟨d, hd, ?_, hinr⟩
  unfold parse_bundle_results
  rw [hd]

/-- Concrete undecodable swap result used by the C4 witness. -/
def c4ResultsW : List Bytes := [[1, 2, 3]]

/-- Single-entry swap operation map used by the C4 witness. -/
def c4MapW : List (Nat × String × String) := [(0, "swap", "s_exact_in")]

/-- C4 (witness for the amended claim): a three-byte undecodable swap
result still produces a parsed dict with an entry for the swap. -/
theorem C4_amended_witness :
    ∃ parsed, parseBundleResultsAux c4ResultsW c4MapW [] = .ok parsed ∧
      parse_bundle_results c4ResultsW c4MapW = parsed ∧
      ∀ e ∈ c4MapW, e.1 < c4ResultsW.length → (dictGet parsed e.2.2).isSome :=
  C4_amended_swap_errors_contained c4ResultsW c4MapW (by decide)

/-- C5: the liquidation call builder appends exactly two calls (an
approval and a direct exact-in swap) for direction YES, exactly five (an
approval, an exact-out buy, two merge approvals and a merge) for
direction NO, and none for any other direction tag. -/
theorem C5_liquidation_call_counts :
    ∀ (intTimes1_1 : Int → Int) (env : Env) (now amount : Int) (sr fr : String),
      ((build_liquidation_calls intTimes1_1 env now amount "YES" sr fr).map callKind
          = ["approval", "swapr_exact_in"]) ∧
      ((build_liquidation_calls intTimes1_1 env now amount "NO" sr fr).map callKind
          = ["approval", "swapr_exact_out", "approval", "approval", "merge"]) ∧
      (∀ token_type, token_type ≠ "YES" → token_type ≠ "NO" →
        build_liquidation_calls intTimes1_1 env now amount token_type sr fr = []) := by
  intro f env now amount sr fr
  refine ⟨rfl, rfl, ?_⟩
  intro tt h1 h2
  simp [build_liquidation_calls, h1, h2]

/-- C5 (witness): concrete instances of the three direction cases. -/
theorem C5_liquidation_call_counts_witness :
    build_liquidation_calls mul11Ex envEx 0 5 "NONE" "SR" "FR" = [] ∧
    (build_liquidation_calls mul11Ex envEx 0 5 "YES" "SR" "FR").map callKind
      = ["approval", "swapr_exact_in"] :=
  ⟨(C5_liquidation_call_counts mul11Ex envEx 0 5 "SR" "FR").2.2 "NONE"
      (by decide) (by decide),
   (C5_liquidation_call_counts mul11Ex envEx 0 5 "SR" "FR").1⟩

/-- C6: in both authorization-building scripts the authorization for the
self-delegating account carries the current transaction nonce plus one,
while the carrying transaction itself uses the current nonce, and the
signed authorization is the one embedded in the transaction. -/
theorem C6_authorization_nonce_offset :
    ∀ (chainId : Int) (accountAddr implementation wrapper : String)
      (nonce gasPrice : Int),
      (debug_eip7702_transaction chainId accountAddr implementation nonce gasPrice).1.nonce
          = nonce + 1 ∧
      (debug_eip7702_transaction chainId accountAddr implementation nonce gasPrice).2.nonce
          = nonce ∧
      (debug_eip7702_transaction chainId accountAddr implementation nonce gasPrice).2.authorizationList
          = [(debug_eip7702_transaction chainId accountAddr implementation nonce gasPrice).1] ∧
      (test_basic_eip7702 chainId accountAddr wrapper nonce gasPrice).1.nonce = nonce + 1 ∧
      (test_basic_eip7702 chainId accountAddr wrapper nonce gasPrice).2.nonce = nonce ∧
      (test_basic_eip7702 chainId accountAddr wrapper nonce gasPrice).2.authorizationList
          = [(test_basic_eip7702 chainId accountAddr wrapper nonce gasPrice).1] := by
  intros
  exact ⟨rfl, rfl, rfl, rfl, rfl, rfl⟩

/-- C7: in the Finalize accounting, when the direction is NO and a
liquidate_merge entry is present in the parsed results, the final sDAI
output is the Balancer swap output plus the liquidation amount itself —
independent of the merge entry outcome, whose decoded value is never
consulted — and the reported net is that sum minus the input amount. -/
theorem C7_legb_merge_accounting :
    ∀ (parsed_final : PyDict) (o : Outcome) (n : Nat)
      (liquidation_amount amount_wei : Int),
      dictGet parsed_final "final_swap" = some (.amountOut n) →
      dictGet parsed_final "liquidate_merge" = some o →
      compute_final_sdai parsed_final "NO" liquidation_amount amount_wei
        = ((n : Int) + liquidation_amount,
           (n : Int) + liquidation_amount - amount_wei) := by
  intro p o n la aw h1 h2
  simp [compute_final_sdai, h1, h2, outcomeAmountOut]

/-- C7 (witness): with a Balancer output of 5, a liquidation amount of 3
and an input of 2, the reported pair is (8, 6) even though the merge
entry carries no decoded amount at all. -/
theorem C7_legb_merge_accounting_witness :
    compute_final_sdai
      [("final_swap", .amountOut 5), ("liquidate_merge", .executed)] "NO" 3 2
      = ((5 : Int) + 3, (5 : Int) + 3 - 2) :=
  C7_legb_merge_accounting
    [("final_swap", .amountOut 5), ("liquidate_merge", .executed)]
    .executed 5 3 2 (by decide) (by decide)

/-- C8: parsing any Balance-phase result set through the reused
discovery map can never attach an amount_in key to the two leg-swap
entries (their names contain exact_in, so they take the exact-in
branch), hence yes_used and no_used always keep their default of the
full input amount and the planner is invoked with equal used amounts. -/
theorem C8_balance_phase_retains_defaults :
    ∀ (results : List Bytes) (amount_wei : Int),
      extract_used_amounts (parse_bundle_results results discovery_map) amount_wei
        = (amount_wei, amount_wei) := by
  intro results amount_wei
  have key : ∀ nm, (nm = "yes_swap_exact_in" ∨ nm = "no_swap_exact_in") →
      dictAmountInOr (parse_bundle_results results discovery_map) nm amount_wei
        = amount_wei := by
    intro nm hnm
    unfold parse_bundle_results
    cases haux : parseBundleResultsAux results discovery_map [] with
    | error e =>
      have hne : ("error" : String) ≠ nm := by
        rcases hnm with rfl | rfl <;> decide
      simp [dictAmountInOr, dictGet, hne]
    | ok d =>
      unfold dictAmountInOr
      cases hg : dictGet d nm with
      | none => rfl
      | some o =>
        have hno : outcomeAmountIn o = none := by
          rcases parseAux_get_mem results discovery_map [] d haux nm o hg with
            hacc | ⟨idx, ty, hm, hl, hpo⟩
          · simp [dictGet] at hacc
          · have hsw := discovery_map_swap_names (idx, ty, nm) hm hnm
            have hty : ty = "swap" := hsw.1
            have hcont : pyContains "exact_in" nm = true := hsw.2
            subst hty
            simp only [parseOp] at hpo
            rw [if_pos trivial, if_pos hcont] at hpo
            injection hpo with h3
            rw [← h3]
            exact amountIn_parse_exactIn _
        simp [hno]
  unfold extract_used_amounts
  rw [key _ (Or.inl rfl), key _ (Or.inr rfl)]

/-- C9: an operation-map entry whose index is at least the number of
decoded per-call results produces no binding at all in the parsed dict —
neither a value nor an error — provided its name is not the reserved
top-level error key and no other entry shares the name. -/
theorem C9_out_of_range_silently_omitted :
    ∀ (results : List Bytes) (opMap : List (Nat × String × String))
      (idx : Nat) (ty nm : String),
      (idx, ty, nm) ∈ opMap → results.length ≤ idx → nm ≠ "error" →
      (∀ i t, (i, t, nm) ∈ opMap → i = idx) →
      dictGet (parse_bundle_results results opMap) nm = none := by
  intro results opMap idx ty nm hmem hlen hne huniq
  unfold parse_bundle_results
  cases haux : parseBundleResultsAux results opMap [] with
  | error e =>
    have hne2 : ("error" : String) ≠ nm := fun hh => hne hh.symm
    simp [dictGet, hne2]
  | ok d =>
    cases hg : dictGet d nm with
    | none => rfl
    | some o =>
      exfalso
      rcases parseAux_get_mem results opMap [] d haux nm o hg with
        hacc | ⟨i, t, hm, hl, _⟩
      · simp [dictGet] at hacc
      · have hi : i = idx := huniq i t hm
        subst hi
        omega

/-- One empty per-call result, used by the C9 witness. -/
def c9Results : List Bytes := [[]]

/-- Operation map whose second entry points past the decoded results,
used by the C9 witness. -/
def c9Map : List (Nat × String × String) :=
  [(0, "split", "a"), (5, "swap", "b_exact_in")]

/-- C9 (witness): with one decoded result and an entry at index 5, the
parsed dict has no binding for that entry. -/
theorem C9_witness :
    dictGet (parse_bundle_results c9Results c9Map) "b_exact_in" = none :=
  C9_out_of_range_silently_omitted c9Results c9Map 5 "swap" "b_exact_in"
    (by decide) (by decide) (by decide)
    (by
      intro i t h
      simp only [c9Map, List.mem_cons, List.not_mem_nil, or_false] at h
      rcases h with h | h
      · have hx : ("b_exact_in" : String) = "a" := congrArg (fun x => x.2.2) h
        exact absurd hx (by decide)
      · exact congrArg (fun x => x.1) h)

/-- C10: every call produced by the six encoders of the call-encoder
layer carries a value field of 0 — no native currency is ever attached. -/
theorem C10_all_calls_zero_value :
    ∀ (token spender router proposal collateral vault pool_id tin tout sndr rcp : String)
      (amount amount2 bound : Int) (deadline : Option Int) (now : Int),
      (encode_approval_call token spender amount).value = 0 ∧
      (encode_split_position_call router proposal collateral amount).value = 0 ∧
      (encode_merge_positions_call router proposal collateral amount).value = 0 ∧
      (encode_swapr_exact_in_call router tin tout amount2 bound rcp deadline now).value = 0 ∧
      (encode_swapr_exact_out_call router tin tout amount2 bound rcp deadline now).value = 0 ∧
      (encode_balancer_swap_call vault pool_id tin tout amount sndr rcp deadline now).value = 0 := by
  intros
  exact ⟨rfl, rfl, rfl, rfl, rfl, rfl⟩

end FutarchyArb
